import Mathlib

/-!
Shallow embedding of the Market Data Aggregation & Fallback Engine of
`src/main.py` (a Streamlit macroeconomic dashboard).

Numeric values are modelled as rationals (`ℚ`); a pandas time index entry is a
`Nat` date code (ordered as dates are).  External providers are modelled as
oracle functions passed in as parameters: `none` models a raised exception or
network failure, `some rows` models a successful raw payload.  A Python
function that can let an exception escape is modelled with `Except Unit`,
where `Except.error ()` is an uncaught exception; the all-`None` tuple
`(None, None, None)` returned by `get_daily_data` is `Except.ok none`.
-/

set_option autoImplicit false

namespace MacroMonitor

/-- A raw row of the FRED CSV payload: a date and a value which is `none`
when the CSV carried the sentinel missing token `'.'`
(`pd.read_csv(..., na_values='.')` turns it into NaN). -/
structure FredRow where
  date : Nat
  value : Option ℚ
  deriving Repr, DecidableEq

/-- A pandas DataFrame with a single value column, as produced by
`get_macro_data`: the column name (set by `df.columns = [series_id]`)
and the rows that survived `dropna()`. -/
structure MacroFrame where
  colName : String
  rows : List (Nat × ℚ)
  deriving Repr, DecidableEq

/-- The date code of 2000-01-01; `df = df[df.index > '2000-01-01']` keeps
rows strictly after it. -/
def fredCutoff : Nat := 20000101

/-- Embedding of `get_macro_data(series_id)` (src/main.py lines 100-110).
`fredCsv` models `pd.read_csv(url, index_col=0, parse_dates=True,
na_values='.')`: `none` is a raised exception (network error, parse error,
provider rejection), `some raw` the parsed rows.  The function sets the
column name to `series_id`, drops missing values, keeps only dates strictly
after 2000-01-01, and returns `none` (Python `None`) when the read raised. -/
def get_macro_data (seriesId : String) (fredCsv : String → Option (List FredRow)) :
    Option MacroFrame :=
  match fredCsv seriesId with
  | none => none
  | some raw =>
      let dropped := raw.filterMap (fun r => r.value.map (fun v => (r.date, v)))
      some { colName := seriesId
             rows := dropped.filter (fun p => fredCutoff < p.1) }

/-- Column selection `df[name]`: `none` models the `KeyError` raised when the
column is absent. -/
def MacroFrame.col (df : MacroFrame) (name : String) : Option (List (Nat × ℚ)) :=
  if df.colName = name then some df.rows else none

/-- The result triple of `get_daily_data`: `none` is `(None, None, None)`,
`some (last_price, delta, history)` the successful tuple. -/
abbrev DailyResult := Option (ℚ × ℚ × List (Nat × ℚ))

/-- Embedding of `get_daily_data(ticker, period)` (src/main.py lines 67-96).

`yf` models `yf.download(ticker, period=period, ...)['Close']`: `none` is a
raised exception, `some pts` the close-price series of the downloaded frame.

For `"^TNX"` the function routes to `get_macro_data "DGS10"`, returns the
all-`None` tuple when that gave `None` or an empty frame, and otherwise reads
`iloc[-1]` and `iloc[-2]` of the `DGS10` column with NO try/except around it:
a missing column or a 1-row series raises (modelled `Except.error ()`).

For every other ticker the whole body sits inside `try/except` and any
failure collapses to the all-`None` tuple. -/
def get_daily_data (ticker : String) (period : String)
    (fredCsv : String → Option (List FredRow))
    (yf : String → String → Option (List (Nat × ℚ))) :
    Except Unit DailyResult :=
  if ticker = "^TNX" then
    match get_macro_data "DGS10" fredCsv with
    | none => .ok none
    | some df =>
        if df.rows.isEmpty then .ok none
        else
          match df.col "DGS10" with
          | none => .error ()
          | some series =>
              match series.reverse with
              | [] => .ok none
              | [_] => .error ()
              | lastRow :: prevRow :: _ =>
                  .ok (some (lastRow.2, lastRow.2 - prevRow.2, series))
  else
    match yf ticker period with
    | none => .ok none
    | some closes =>
        if closes.isEmpty then .ok none
        else
          match closes.reverse with
          | [] => .ok none
          | [_] => .ok none
          | lastRow :: prevRow :: _ =>
              .ok (some (lastRow.2, lastRow.2 - prevRow.2, closes))

/-- Embedding of the percent-change computation of the aggregation loop
(src/main.py lines 220-224): `prev_price = current - delta`;
`pct_change = 0` unless `prev_price != 0`, then `(delta / prev_price) * 100`. -/
def pct_change (current delta : ℚ) : ℚ :=
  let prev_price := current - delta
  if prev_price ≠ 0 then delta / prev_price * 100 else 0

/-- Embedding of the VIX implied daily move (src/main.py line 231):
`daily_vol = current / 16`. -/
def daily_vol (current : ℚ) : ℚ := current / 16

/-- Embedding of `df.pct_change(periods=12)` on the value column: the output
has one entry per input point; the first 12 entries are NaN (`none`), entry
`t ≥ 12` is `value[t] / value[t-12] - 1`. -/
def pct_change_12 (vals : List ℚ) : List (Option ℚ) :=
  (List.range vals.length).map (fun t =>
    if 12 ≤ t then some (vals.getD t 0 / vals.getD (t - 12) 0 - 1) else none)

/-- Embedding of `cpi_yoy = cpi_data.pct_change(periods=12) * 100`
(src/main.py line 271), on the value column. -/
def cpi_yoy (vals : List ℚ) : List (Option ℚ) :=
  (pct_change_12 vals).map (Option.map (fun q => q * 100))

/-- An instrument of the `metrics` configuration dict (src/main.py
lines 193-205): display name, ticker, unit suffix. -/
structure Metric where
  name : String
  ticker : String
  suffix : String
  deriving Repr, DecidableEq

/-- The display name of the volatility-index instrument, compared against in
`if name == "😨 VIX (공포지수)":` (src/main.py line 230). -/
def vixLabel : String := "😨 VIX (공포지수)"

/-- The configured instrument ordering (src/main.py lines 193-205). -/
def metrics : List Metric :=
  [ { name := "🇺🇸 미국 10년물 금리", ticker := "^TNX", suffix := "%" }
  , { name := "🇰🇷 원/달러 환율", ticker := "KRW=X", suffix := "원" }
  , { name := vixLabel, ticker := "^VIX", suffix := "" }
  , { name := "🇺🇸 나스닥 100", ticker := "^IXIC", suffix := "" }
  , { name := "🇺🇸 S&P 500", ticker := "^GSPC", suffix := "" }
  , { name := "🇯🇵 닛케이 225", ticker := "^N225", suffix := "" }
  , { name := "🌏 신흥국 ETF (EEM)", ticker := "EEM", suffix := "" }
  , { name := "🇰🇷 코스피 지수", ticker := "^KS11", suffix := "" } ]

/-- One rendered item of the market-pulse pass: either a data line appended to
`data_summary` (with the computed current value, percent change and, for the
VIX instrument only, the implied daily move), or the `st.warning` load-failure
indicator which contributes nothing to `data_summary`. -/
inductive RenderItem where
  | line (name : String) (current pct : ℚ) (vol : Option ℚ)
  | warning (name : String)
  deriving Repr, DecidableEq

/-- Rendering of one fetched result (src/main.py lines 217-252): a present
tuple yields a `data_summary` line (with `daily_vol` attached exactly for the
VIX display name); the all-`None` tuple yields only the load-failure warning. -/
def render (m : Metric) (res : DailyResult) : RenderItem :=
  match res with
  | some (current, delta, _) =>
      let pct := pct_change current delta
      if m.name = vixLabel then .line m.name current pct (some (daily_vol current))
      else .line m.name current pct none
  | none => .warning m.name

/-- Embedding of the aggregation pass over the configured instruments
(src/main.py lines 211-252): each metric is fetched and rendered in order; an
uncaught exception from `get_daily_data` aborts the whole script
(`Except.error`), while the all-`None` tuple only yields a warning item and
the pass continues. -/
def market_pulse (ms : List Metric)
    (fredCsv : String → Option (List FredRow))
    (yf : String → String → Option (List (Nat × ℚ))) :
    Except Unit (List RenderItem) :=
  match ms with
  | [] => .ok []
  | m :: rest =>
      match get_daily_data m.ticker "6mo" fredCsv yf with
      | .error _ => .error ()
      | .ok res =>
          match market_pulse rest fredCsv yf with
          | .error _ => .error ()
          | .ok items => .ok (render m res :: items)

/-- The lines actually appended to `data_summary`, in order. -/
def summaryLines (items : List RenderItem) : List RenderItem :=
  items.filter (fun it => match it with | .line _ _ _ _ => true | .warning _ => false)

/-- A cache entry of the Series Store: the cached value and the time it was
fetched. -/
structure CacheEntry (α : Type) where
  value : α
  fetched_at : Nat
  deriving Repr, DecidableEq

/-- Modelled from the spec: the Series Store (`st.cache_data`) implementation
is not part of src/, only its decorated callers are.  Spec 4.1: return the
cached series while `now - fetched_at < ttl`; otherwise invoke `fetch_fn`; on
success store and return the new series; on failure return `AbsentResult`
(`none`) while leaving the previous cache entry intact. -/
def get_or_fetch {α : Type} (store : String → Option (CacheEntry α)) (key : String)
    (now ttl : Nat) (fetch_fn : Unit → Option α) :
    Option α × (String → Option (CacheEntry α)) :=
  match store key with
  | some e =>
      if now - e.fetched_at < ttl then (some e.value, store)
      else
        match fetch_fn () with
        | some v => (some v, fun k => if k = key then some ⟨v, now⟩ else store k)
        | none => (none, store)
  | none =>
      match fetch_fn () with
      | some v => (some v, fun k => if k = key then some ⟨v, now⟩ else store k)
      | none => (none, store)

/-! ### Concrete example oracles used by witnesses -/

/-- A FRED oracle that always raises (network failure on every series). -/
def fredNone : String → Option (List FredRow) := fun _ => none

/-- A raw DGS10 payload: a pre-2000 row, two numeric rows and a sentinel
missing row. -/
def dgs10Raw : List FredRow :=
  [ { date := 19990601, value := some 6 }
  , { date := 20240101, value := some 5 }
  , { date := 20240102, value := none }
  , { date := 20240103, value := some 4 } ]

/-- A FRED oracle serving `dgs10Raw` for DGS10 and raising otherwise. -/
def fredEx : String → Option (List FredRow) := fun s =>
  if s = "DGS10" then some dgs10Raw else none

/-- The frame `get_macro_data "DGS10" fredEx` produces. -/
def dgs10Frame : MacroFrame :=
  { colName := "DGS10", rows := [(20240101, 5), (20240103, 4)] }

/-- A two-point close series `[100, 105]`. -/
def krwPts : List (Nat × ℚ) := [(20240101, 100), (20240102, 105)]

/-- A daily-quote oracle serving `krwPts` for `KRW=X` and raising otherwise. -/
def yfEx : String → String → Option (List (Nat × ℚ)) := fun t _ =>
  if t = "KRW=X" then some krwPts else none

/-- A daily-quote oracle that always raises. -/
def yfNone : String → String → Option (List (Nat × ℚ)) := fun _ _ => none

/-- A daily-quote oracle that always returns an empty frame. -/
def yfEmpty : String → String → Option (List (Nat × ℚ)) := fun _ _ => some []

/-- A 13-point monthly CPI-like series with `value[0] = 100`,
`value[12] = 102`. -/
def cpiEx13 : List ℚ :=
  [100, 100, 100, 100, 100, 100, 100, 100, 100, 100, 100, 100, 102]

/-! ### Helper lemmas about `get_macro_data` -/

theorem get_macro_data_of_raise {s : String} {f : String → Option (List FredRow)}
    (h : f s = none) : get_macro_data s f = none := by
  simp [get_macro_data, h]

theorem get_macro_data_of_payload {s : String} {f : String → Option (List FredRow)}
    {raw : List FredRow} (h : f s = some raw) :
    get_macro_data s f =
      some { colName := s
             rows := (raw.filterMap (fun r => r.value.map (fun v => (r.date, v)))).filter
               (fun p => fredCutoff < p.1) } := by
  simp [get_macro_data, h]

theorem macro_colName {s : String} {f : String → Option (List FredRow)} {df : MacroFrame}
    (h : get_macro_data s f = some df) : df.colName = s := by
  cases hf : f s with
  | none => rw [get_macro_data_of_raise hf] at h; cases h
  | some raw =>
      rw [get_macro_data_of_payload hf] at h
      cases h
      rfl

theorem macro_rows_after_cutoff {s : String} {f : String → Option (List FredRow)}
    {df : MacroFrame} (h : get_macro_data s f = some df) :
    ∀ p ∈ df.rows, fredCutoff < p.1 := by
  cases hf : f s with
  | none => rw [get_macro_data_of_raise hf] at h; cases h
  | some raw =>
      rw [get_macro_data_of_payload hf] at h
      cases h
      intro p hp
      have := List.of_mem_filter hp
      simpa using this

theorem macro_rows_from_raw {s : String} {f : String → Option (List FredRow)}
    {raw : List FredRow} {df : MacroFrame} (hf : f s = some raw)
    (h : get_macro_data s f = some df) :
    ∀ p ∈ df.rows, ∃ r ∈ raw, r.date = p.1 ∧ r.value = some p.2 := by
  rw [get_macro_data_of_payload hf] at h
  cases h
  intro p hp
  have hp' := List.mem_of_mem_filter hp
  rcases List.mem_filterMap.mp hp' with ⟨r, hr, hmap⟩
  refine ⟨r, hr, ?_⟩
  cases hv : r.value with
  | none => rw [hv] at hmap; cases hmap
  | some v =>
      rw [hv] at hmap
      simp only [Option.map_some'] at hmap
      cases hmap
      exact ⟨rfl, rfl⟩

/-! ### Claim theorems -/

/-- C6: for every snapshot whose prior value (`prev_price = current - delta`)
equals 0, the percent delta is reported as 0 by the explicit guard; the
computation is total, so no division fault occurs. -/
theorem pct_change_zero_prior (current delta : ℚ) (h : current - delta = 0) :
    pct_change current delta = 0 := by
  simp [pct_change, h]

theorem pct_change_zero_prior_witness : pct_change 5 5 = 0 :=
  pct_change_zero_prior 5 5 (by norm_num)

/-- C7: for the designated volatility-index instrument (the metric whose
display name is the VIX label), the rendered snapshot carries the auxiliary
implied-daily-move field `daily_vol current = current / 16`; in particular
`current = 20` yields `5/4 = 1.25`. -/
theorem vix_implied_daily_move :
    (∀ (c d : ℚ) (hist : List (Nat × ℚ)),
      render { name := vixLabel, ticker := "^VIX", suffix := "" } (some (c, d, hist)) =
        .line vixLabel c (pct_change c d) (some (daily_vol c))) ∧
    daily_vol 20 = 5 / 4 := by
  constructor
  · intro c d hist
    simp [render]
  · norm_num [daily_vol]

/-- C2 (Series Store): for a stale cache entry, a failing refresh returns
`AbsentResult` (`none`) to the caller and leaves the whole store — in
particular the previous entry for the key — unchanged. -/
theorem stale_refresh_failure_keeps_entry {α : Type} (store : String → Option (CacheEntry α))
    (key : String) (now ttl : Nat) (fetch_fn : Unit → Option α) (e : CacheEntry α)
    (hcached : store key = some e) (hstale : ¬ now - e.fetched_at < ttl)
    (hfail : fetch_fn () = none) :
    get_or_fetch store key now ttl fetch_fn = (none, store) := by
  simp [get_or_fetch, hcached, hstale, hfail]

/-- A concrete store with one entry under the `"^TNX"` key, fetched at time 0. -/
def storeEx : String → Option (CacheEntry ℚ) := fun k =>
  if k = "^TNX" then some { value := 4, fetched_at := 0 } else none

theorem stale_refresh_failure_keeps_entry_witness :
    get_or_fetch storeEx "^TNX" 5000 3600 (fun _ => none) = (none, storeEx) ∧
    storeEx "^TNX" = some { value := 4, fetched_at := 0 } :=
  ⟨stale_refresh_failure_keeps_entry storeEx "^TNX" 5000 3600 (fun _ => none)
      { value := 4, fetched_at := 0 } rfl (by norm_num) rfl,
   rfl⟩

/-- C5: on the daily-quote path with at least 2 points, the snapshot's delta
is computed as `current - prior` (last two close prices), and when the prior
is nonzero the percent change is `delta / prior * 100`; at `[100, 105]` this
gives `delta = 5`, `pct = 5`. -/
theorem derive_delta_and_pct (ticker period : String)
    (fredCsv : String → Option (List FredRow))
    (yf : String → String → Option (List (Nat × ℚ)))
    (hts : ticker ≠ "^TNX") (pts : List (Nat × ℚ)) (lastRow prevRow : Nat × ℚ)
    (rest : List (Nat × ℚ)) (hyf : yf ticker period = some pts)
    (hrev : pts.reverse = lastRow :: prevRow :: rest) :
    get_daily_data ticker period fredCsv yf =
      .ok (some (lastRow.2, lastRow.2 - prevRow.2, pts)) ∧
    (prevRow.2 ≠ 0 →
      pct_change lastRow.2 (lastRow.2 - prevRow.2) =
        (lastRow.2 - prevRow.2) / prevRow.2 * 100) := by
  constructor
  · have hne : pts.isEmpty = false := by
      cases pts with
      | nil => simp at hrev
      | cons a l => rfl
    simp [get_daily_data, hts, hyf, hne, hrev]
  · intro hprior
    have hprev : lastRow.2 - (lastRow.2 - prevRow.2) = prevRow.2 := by ring
    simp [pct_change, hprev, hprior]

theorem derive_delta_and_pct_witness :
    get_daily_data "KRW=X" "6mo" fredNone yfEx = .ok (some (105, 5, krwPts)) ∧
    pct_change 105 5 = 5 := by
  have h := derive_delta_and_pct "KRW=X" "6mo" fredNone yfEx (by decide) krwPts
    (20240102, 105) (20240101, 100) [] rfl (by decide)
  have h1 := h.1
  have h2 := h.2 (by norm_num)
  norm_num at h1 h2
  exact ⟨h1, h2⟩

/-- C8: whenever the CSV read of a series succeeds, the Long-Horizon Macro
Adapter returns a frame whose value column is renamed to the series code,
whose rows all carry timestamps strictly after the 2000-01-01 cutoff, and
each of whose values comes from a raw row that actually held a number (rows
with the sentinel missing token are removed, never coerced to a value). -/
theorem macro_adapter_clean (s : String) (f : String → Option (List FredRow))
    (raw : List FredRow) (hf : f s = some raw) :
    (get_macro_data s f).isSome = true ∧
    ∀ df, get_macro_data s f = some df →
      df.colName = s ∧
      (∀ p ∈ df.rows, fredCutoff < p.1) ∧
      (∀ p ∈ df.rows, ∃ r ∈ raw, r.date = p.1 ∧ r.value = some p.2) := by
  refine ⟨?_, ?_⟩
  · rw [get_macro_data_of_payload hf]; rfl
  · intro df hdf
    exact ⟨macro_colName hdf, macro_rows_after_cutoff hdf, macro_rows_from_raw hf hdf⟩

theorem macro_adapter_clean_witness :
    get_macro_data "DGS10" fredEx = some dgs10Frame ∧
    dgs10Frame.colName = "DGS10" ∧
    (20240101, (5 : ℚ)) ∈ dgs10Frame.rows := by
  have h := macro_adapter_clean "DGS10" fredEx dgs10Raw rfl
  have hdf : get_macro_data "DGS10" fredEx = some dgs10Frame := by decide
  exact ⟨hdf, (h.2 dgs10Frame hdf).1, by decide⟩

/-- C1: the provider-sensitive ticker `^TNX` is resolved through the
Long-Horizon Macro Adapter under the alternate series code `DGS10` and never
through the Daily-Quote Adapter (the result is independent of the daily-quote
oracle); when the single alternate fetch fails or yields an empty series the
resolver returns the all-`None` tuple; on success the value column has been
renamed to `DGS10` and every used value comes from a raw row holding a number
(missing placeholders removed before use). -/
theorem tnx_fallback_resolve (period : String)
    (fredCsv : String → Option (List FredRow))
    (yf : String → String → Option (List (Nat × ℚ))) :
    (∀ yf', get_daily_data "^TNX" period fredCsv yf =
      get_daily_data "^TNX" period fredCsv yf') ∧
    (get_macro_data "DGS10" fredCsv = none →
      get_daily_data "^TNX" period fredCsv yf = .ok none) ∧
    (∀ df, get_macro_data "DGS10" fredCsv = some df → df.rows = [] →
      get_daily_data "^TNX" period fredCsv yf = .ok none) ∧
    (∀ raw df lastRow prevRow rest, fredCsv "DGS10" = some raw →
      get_macro_data "DGS10" fredCsv = some df →
      df.rows.reverse = lastRow :: prevRow :: rest →
      get_daily_data "^TNX" period fredCsv yf =
        .ok (some (lastRow.2, lastRow.2 - prevRow.2, df.rows)) ∧
      df.colName = "DGS10" ∧
      (∀ p ∈ df.rows, ∃ r ∈ raw, r.date = p.1 ∧ r.value = some p.2)) := by
  refine ⟨?_, ?_, ?_, ?_⟩
  · intro yf'
    simp [get_daily_data]
  · intro h
    simp [get_daily_data, h]
  · intro df hdf hrows
    simp [get_daily_data, hdf, hrows]
  · intro raw df lastRow prevRow rest hf hdf hrev
    have hcol := macro_colName hdf
    have hne : df.rows.isEmpty = false := by
      cases hr : df.rows with
      | nil => rw [hr] at hrev; simp at hrev
      | cons a l => rfl
    refine ⟨?_, hcol, macro_rows_from_raw hf hdf⟩
    simp [get_daily_data, hdf, hne, MacroFrame.col, hcol, hrev]

theorem tnx_fallback_resolve_witness :
    get_daily_data "^TNX" "6mo" fredNone yfEx = .ok none ∧
    get_daily_data "^TNX" "6mo" fredEx yfEx =
      .ok (some (4, 4 - 5, [(20240101, (5 : ℚ)), (20240103, 4)])) := by
  constructor
  · exact (tnx_fallback_resolve "6mo" fredNone yfEx).2.1 (get_macro_data_of_raise rfl)
  · have hdf : get_macro_data "DGS10" fredEx = some dgs10Frame := by decide
    have h := (tnx_fallback_resolve "6mo" fredEx yfEx).2.2.2 dgs10Raw dgs10Frame
      (20240103, 4) (20240101, 5) [] rfl hdf (by decide)
    exact h.1

/-- C3: for every identifier, each of the provider failure causes —
a raised exception on the FRED read (network error, provider rejection,
parse error), an alternate payload that filters to an empty series, a raised
exception on the daily-quote download, and an empty daily-quote payload —
is caught at the adapter boundary and collapsed to the single all-`None`
outcome (`Except.ok none`, never `Except.error`), and `get_macro_data`
itself converts a raised read to `none` rather than propagating. -/
theorem adapter_failures_collapsed (ticker period : String)
    (fredCsv : String → Option (List FredRow))
    (yf : String → String → Option (List (Nat × ℚ))) :
    (∀ s, fredCsv s = none → get_macro_data s fredCsv = none) ∧
    (ticker = "^TNX" → fredCsv "DGS10" = none →
      get_daily_data ticker period fredCsv yf = .ok none) ∧
    (ticker = "^TNX" → ∀ df, get_macro_data "DGS10" fredCsv = some df →
      df.rows = [] → get_daily_data ticker period fredCsv yf = .ok none) ∧
    (ticker ≠ "^TNX" → yf ticker period = none →
      get_daily_data ticker period fredCsv yf = .ok none) ∧
    (ticker ≠ "^TNX" → yf ticker period = some [] →
      get_daily_data ticker period fredCsv yf = .ok none) := by
  refine ⟨?_, ?_, ?_, ?_, ?_⟩
  · intro s h
    exact get_macro_data_of_raise h
  · intro ht h
    subst ht
    simp [get_daily_data, get_macro_data_of_raise h]
  · intro ht df hdf hrows
    subst ht
    simp [get_daily_data, hdf, hrows]
  · intro ht h
    simp [get_daily_data, ht, h]
  · intro ht h
    simp [get_daily_data, ht, h]

theorem adapter_failures_collapsed_witness :
    get_macro_data "CPIAUCSL" fredNone = none ∧
    get_daily_data "^TNX" "6mo" fredNone yfEx = .ok none ∧
    get_daily_data "KRW=X" "6mo" fredNone yfNone = .ok none ∧
    get_daily_data "KRW=X" "6mo" fredNone yfEmpty = .ok none := by
  refine ⟨?_, ?_, ?_, ?_⟩
  · exact (adapter_failures_collapsed "^TNX" "6mo" fredNone yfEx).1 "CPIAUCSL" rfl
  · exact (adapter_failures_collapsed "^TNX" "6mo" fredNone yfEx).2.1 rfl rfl
  · exact (adapter_failures_collapsed "KRW=X" "6mo" fredNone yfNone).2.2.2.1 (by decide) rfl
  · exact (adapter_failures_collapsed "KRW=X" "6mo" fredNone yfEmpty).2.2.2.2 (by decide) rfl

/-- C10: the lookback-window argument of `get_daily_data` is ignored on the
`^TNX` fallback path — the result is the same for any two `period` values and
the returned history is the alternate provider's full truncated history
(every point strictly after the 2000-01-01 cutoff) — whereas for every other
ticker the returned history is exactly the close series the daily-quote
provider returned for the requested `period`. -/
theorem period_ignored_on_fallback (p1 p2 : String)
    (fredCsv : String → Option (List FredRow))
    (yf : String → String → Option (List (Nat × ℚ))) :
    (get_daily_data "^TNX" p1 fredCsv yf = get_daily_data "^TNX" p2 fredCsv yf) ∧
    (∀ df lastRow prevRow rest, get_macro_data "DGS10" fredCsv = some df →
      df.rows.reverse = lastRow :: prevRow :: rest →
      get_daily_data "^TNX" p1 fredCsv yf =
        .ok (some (lastRow.2, lastRow.2 - prevRow.2, df.rows)) ∧
      (∀ q ∈ df.rows, fredCutoff < q.1)) ∧
    (∀ t, t ≠ "^TNX" → ∀ pts lastRow prevRow rest, yf t p1 = some pts →
      pts.reverse = lastRow :: prevRow :: rest →
      get_daily_data t p1 fredCsv yf = .ok (some (lastRow.2, lastRow.2 - prevRow.2, pts))) := by
  refine ⟨?_, ?_, ?_⟩
  · simp [get_daily_data]
  · intro df lastRow prevRow rest hdf hrev
    have hcol := macro_colName hdf
    have hne : df.rows.isEmpty = false := by
      cases hr : df.rows with
      | nil => rw [hr] at hrev; simp at hrev
      | cons a l => rfl
    constructor
    · simp [get_daily_data, hdf, hne, MacroFrame.col, hcol, hrev]
    · exact macro_rows_after_cutoff hdf
  · intro t ht pts lastRow prevRow rest hyf hrev
    have hne : pts.isEmpty = false := by
      cases pts with
      | nil => simp at hrev
      | cons a l => rfl
    simp [get_daily_data, ht, hyf, hne, hrev]

theorem period_ignored_on_fallback_witness :
    get_daily_data "^TNX" "6mo" fredEx yfEx = get_daily_data "^TNX" "1y" fredEx yfEx ∧
    get_daily_data "^TNX" "6mo" fredEx yfEx =
      .ok (some (4, 4 - 5, [(20240101, (5 : ℚ)), (20240103, 4)])) ∧
    get_daily_data "KRW=X" "6mo" fredEx yfEx = .ok (some (105, 105 - 100, krwPts)) := by
  have hdf : get_macro_data "DGS10" fredEx = some dgs10Frame := by decide
  refine ⟨?_, ?_, ?_⟩
  · exact (period_ignored_on_fallback "6mo" "1y" fredEx yfEx).1
  · exact ((period_ignored_on_fallback "6mo" "1y" fredEx yfEx).2.1 dgs10Frame
      (20240103, 4) (20240101, 5) [] hdf (by decide)).1
  · exact (period_ignored_on_fallback "6mo" "1y" fredEx yfEx).2.2 "KRW=X" (by decide)
      krwPts (20240102, 105) (20240101, 100) [] rfl (by decide)

/-- C4 counterexample: on the 13-point series `cpiEx13` the YoY transform
does NOT drop the first 12 points — the output still has 13 entries and an
undefined (NaN) entry remains in it, refuting "the first 12 points are
dropped (no undefined or NaN points remain in the output)". -/
theorem cpi_yoy_keeps_undefined_points :
    (cpi_yoy cpiEx13).length = 13 ∧ none ∈ cpi_yoy cpiEx13 := by
  decide

/-- C4 amended: the YoY transform returns a series of the same length as its
input; entry `t ≥ 12` is `(value[t] / value[t-12] - 1) * 100` and entries
`t < 12` are undefined (NaN) but remain in the output; on the 13-point series
with `value[0] = 100`, `value[12] = 102` the first defined YoY point is 2. -/
theorem cpi_yoy_formula (vals : List ℚ) :
    ((cpi_yoy vals).length = vals.length ∧
     ∀ t, t < vals.length →
       (cpi_yoy vals)[t]? =
         some (if 12 ≤ t then some ((vals.getD t 0 / vals.getD (t - 12) 0 - 1) * 100)
               else none)) ∧
    (cpi_yoy cpiEx13)[12]? = some (some 2) := by
  have hget : ∀ (w : List ℚ) t, t < w.length →
      (cpi_yoy w)[t]? =
        some (if 12 ≤ t then some ((w.getD t 0 / w.getD (t - 12) 0 - 1) * 100)
              else none) := by
    intro w t ht
    simp only [cpi_yoy, pct_change_12, List.getElem?_map, List.getElem?_range ht,
      Option.map_some']
    split
    · rfl
    · rfl
  have hlen : (cpi_yoy vals).length = vals.length := by
    simp [cpi_yoy, pct_change_12]
  refine ⟨⟨hlen, hget vals⟩, ?_⟩
  rw [hget cpiEx13 12 (by decide)]
  have e12 : cpiEx13.getD 12 0 = 102 := rfl
  have e0 : cpiEx13.getD (12 - 12) 0 = 100 := rfl
  rw [if_pos (le_refl 12), e12, e0]
  norm_num

theorem cpi_yoy_formula_witness :
    (cpi_yoy cpiEx13)[5]? = some none ∧
    (cpi_yoy cpiEx13)[12]? = some (some 2) := by
  have h := (cpi_yoy_formula cpiEx13).1.2 5 (by decide)
  norm_num at h
  exact ⟨h, (cpi_yoy_formula cpiEx13).2⟩

/-- The NASDAQ metric of the configuration, used as a concrete instrument
whose fetch yields no data under the witness oracles. -/
def ixicM : Metric := { name := "🇺🇸 나스닥 100", ticker := "^IXIC", suffix := "" }

/-- The won/dollar metric of the configuration. -/
def krwM : Metric := { name := "🇰🇷 원/달러 환율", ticker := "KRW=X", suffix := "원" }

/-- C9: a metric whose fetch returns the all-`None` tuple contributes exactly
the load-failure warning item to the pass — the pass output decomposes as the
items of the preceding metrics, the warning, and the items of all remaining
metrics, which are still processed — and a warning item appends no line to
`data_summary`. -/
theorem absent_metric_skipped (pre post : List Metric) (m : Metric)
    (fredCsv : String → Option (List FredRow))
    (yf : String → String → Option (List (Nat × ℚ)))
    (h : get_daily_data m.ticker "6mo" fredCsv yf = .ok none) :
    market_pulse (pre ++ m :: post) fredCsv yf =
      (market_pulse pre fredCsv yf).bind (fun a =>
        (market_pulse post fredCsv yf).map (fun b => a ++ RenderItem.warning m.name :: b)) ∧
    (∀ items, summaryLines (RenderItem.warning m.name :: items) = summaryLines items) := by
  constructor
  · induction pre with
    | nil =>
        simp only [List.nil_append, market_pulse, h]
        cases hp : market_pulse post fredCsv yf with
        | error e => simp [Except.bind, Except.map]
        | ok items => simp [render, Except.bind, Except.map]
    | cons p ps ih =>
        simp only [List.cons_append, market_pulse, List.append_eq]
        cases hq : get_daily_data p.ticker "6mo" fredCsv yf with
        | error e => simp [Except.bind]
        | ok res =>
            rw [ih]
            cases ha : market_pulse ps fredCsv yf with
            | error e => simp [Except.bind]
            | ok a =>
                cases hb : market_pulse post fredCsv yf with
                | error e => simp [Except.bind, Except.map]
                | ok b => simp [Except.bind, Except.map]
  · intro items
    simp [summaryLines]

theorem absent_metric_skipped_witness :
    market_pulse ([] ++ ixicM :: [krwM]) fredNone yfEx =
      (market_pulse [] fredNone yfEx).bind (fun a =>
        (market_pulse [krwM] fredNone yfEx).map
          (fun b => a ++ RenderItem.warning ixicM.name :: b)) ∧
    summaryLines (RenderItem.warning ixicM.name ::
        [RenderItem.line krwM.name 105 5 none]) =
      summaryLines [RenderItem.line krwM.name 105 5 none] := by
  have h := absent_metric_skipped [] [krwM] ixicM fredNone yfEx rfl
  exact ⟨h.1, h.2 [RenderItem.line krwM.name 105 5 none]⟩

end MacroMonitor
